import Mathlib

/-!
Verification of the background install/download pipeline
(`src/gui/util/downloads.py`, with the console registry from
`src/src/data/library.py`).

The pipeline is embedded shallowly: the Task Record is a structure, the
Stage Executor `_process_download` is a pure function from an environment
(the outcomes of the external collaborators: console registry lookup,
source resolver, metadata persistence, artwork provider) to the list of
Task Record snapshots it produces (one per record mutation, in program
order) together with the list of filesystem/network effects it performs.
Python floats only ever hold the constant stage markers and are copied and
compared, never computed with, so progress is modelled as a rational.
Exceptions are modelled by explicit outcome flags in the environment; a
`try/except` in the source becomes a branch on the flag.
-/

/-- The status enum from `src/gui/util/downloads.py` (`DownloadStatus`). -/
inductive DownloadStatus
  | queued
  | downloading
  | extracting
  | metadata
  | artwork
  | complete
  | failed
deriving DecidableEq, Repr

/-- The caller-supplied catalog hint (`igdb_game`): the fields
`_process_download` reads (`id`, `name`, `publisher`, `year`).  `publisher`
and `year` are optional in the source (`or` fallbacks). -/
structure IgdbGame where
  id : Nat
  name : String
  publisher : Option String
  year : Option Nat
deriving DecidableEq, Repr

/-- The Task Record (`DownloadTask` dataclass).  The opaque `source` field
is not modelled (the pipeline only passes it through to the resolver, whose
outcome the environment carries). -/
structure DownloadTask where
  id : String
  game_name : String
  console : String
  status : DownloadStatus
  progress : Rat
  error : Option String
  igdb_game : Option IgdbGame
deriving DecidableEq, Repr

/-- The metadata record written in the METADATA stage (`GameMetadata` from
`src/src/data/library.py`); `title` and `publisher` are region maps. -/
structure GameMetadata where
  code : String
  console : String
  id : Nat
  title : List (String × String)
  publisher : List (String × String)
  year : Nat
  region : String
deriving DecidableEq, Repr

/-- One filesystem or network side effect of the executor, in program
order.  Paths are lists of components below the library's console root. -/
inductive Effect
  | mkdirp (path : List String)
  | download (dest : List String)
  | extractEntry (entry : String) (dest_dir : List String)
  | renameTo (target : List String)
  | unlinkArchive (path : List String)
  | saveMetadata (path : List String) (m : GameMetadata)
  | fetchAsset (url : String) (dest : List String)
deriving DecidableEq, Repr

/-- `CONSOLE_EXTENSIONS` from `src/src/data/library.py`, in source order. -/
def CONSOLE_EXTENSIONS : List (String × String) :=
  [("SFC", "sfc"), ("SNES", "sfc"), ("NES", "nes"), ("GB", "gb"),
   ("GBC", "gbc"), ("GBA", "gba"), ("N64", "z64"), ("GC", "iso"),
   ("WII", "iso"), ("DS", "nds"), ("3DS", "3ds"), ("SWITCH", "nsp"),
   ("PS1", "bin"), ("PS2", "iso"), ("PSP", "iso"), ("GENESIS", "bin"),
   ("SMS", "sms"), ("GG", "gg"), ("ARCADE", "zip"), ("DOS", "zip"),
   ("WIIU", "wux"), ("NATIVE", "sh"), ("WINE", "exe")]

/-- Python `str.upper()` (ASCII case mapping, which covers every console
code and name the pipeline handles). -/
def pyUpper (s : String) : String := String.mk (s.toList.map Char.toUpper)

/-- Python `str.lower()` (ASCII case mapping). -/
def pyLower (s : String) : String := String.mk (s.toList.map Char.toLower)

/-- Python `str.endswith`. -/
def pyEndsWith (s suff : String) : Bool :=
  let a := s.toList
  let b := suff.toList
  (a.drop (a.length - b.length)) == b

/-- Python `\w` on ASCII: letters, digits and underscore. -/
def isPyWordChar (c : Char) : Bool := c.isAlphanum || c = '_'

/-- Second regex of the slug computation: every run of `[-\s]+` becomes a
single dash (`re.sub(r"[-\s]+", "-", s)` on a string whose characters are
already only word chars, whitespace and dashes). -/
def collapseSeps : Bool → List Char → List Char
  | _, [] => []
  | prevSep, c :: rest =>
    if c = '-' ∨ c.isWhitespace then
      (if prevSep then collapseSeps true rest else '-' :: collapseSeps true rest)
    else c :: collapseSeps false rest

/-- Python `str.strip("-")`. -/
def stripDash (cs : List Char) : List Char :=
  ((cs.dropWhile (fun c => c = '-')).reverse.dropWhile (fun c => c = '-')).reverse

/-- The game slug computed by `_process_download`:
`re.sub(r"[^\w\s-]", "", name.lower())` then `re.sub(r"[-\s]+", "-", ...)`
then `.strip("-")`. -/
def slugify (s : String) : String :=
  let cleaned := (pyLower s).toList.filter
    (fun c => isPyWordChar c || c.isWhitespace || c = '-')
  String.mk (stripDash (collapseSeps false cleaned))

/-- `pathlib.PurePath.suffix` of a file name: the part from the last dot
on, empty when there is no dot, the dot is leading, or the dot is last
(CPython: `i = name.rfind('.'); name[i:] if 0 < i < len(name) - 1 else ''`). -/
def fileSuffix (name : String) : String :=
  let cs := name.toList
  let lastDot := (List.range cs.length).foldl
    (fun acc i => if cs.getD i ' ' = '.' then some i else acc) none
  match lastDot with
  | none => ""
  | some i => if 0 < i ∧ i < cs.length - 1 then String.mk (cs.drop i) else ""

/-- Python truthy `or` on strings: `x or d` falls back on `None` and `""`. -/
def pyOrStr (o : Option String) (d : String) : String :=
  match o with
  | none => d
  | some s => if s = "" then d else s

/-- Python truthy `or` on ints: `x or d` falls back on `None` and `0`. -/
def pyOrNat (o : Option Nat) (d : Nat) : Nat :=
  match o with
  | none => d
  | some n => if n = 0 then d else n

/-- `get_console_metadata` result: the field the executor reads (`name`,
used to build the console directory). -/
structure ConsoleMeta where
  name : String
deriving DecidableEq, Repr

/-- Outcome of `zipfile.ZipFile` in `_extract_switch_game`: the archive's
`namelist()` and whether any of the zip/rename/unlink calls raises (the
helper catches every exception and returns `False`). -/
structure ZipEnv where
  raises : Bool
  namelist : List String

/-- Outcomes of the steamgrid collaborator inside the ARTWORK stage body:
whether some call raises (the stage body swallows every exception), the
result of `search_game` for a given name, and the `url` field of each asset
returned by `get_assets(game_id, asset_type)` (`None` models a missing
`"url"` key). -/
structure ArtworkEnv where
  raises : Bool
  raisedFx : List Effect
  search_game : String → List Nat
  assetUrls : Nat → String → List (Option String)

/-- The executor's environment: the outcome of every external call
`_process_download` makes, in the order the source makes them. -/
structure Env where
  consoleMeta : Option ConsoleMeta
  mkdirRaises : Bool
  mkdirErr : String
  mkdirFx : List Effect
  downloadOk : Bool
  zip : ZipEnv
  saveRaises : Bool
  saveErr : String
  steamgridKey : Bool
  artwork : ArtworkEnv

/-- `_update_task`: sets `status` and `progress` on the record (the
notify call it then makes is modelled separately, see `run_notifier`). -/
def update_task (task : DownloadTask) (status : DownloadStatus) (progress : Rat) :
    DownloadTask :=
  { task with status := status, progress := progress }

/-- The failure mutation pattern of `_process_download`:
`task.status = FAILED; task.error = msg` (progress untouched). -/
def fail_task (task : DownloadTask) (msg : String) : DownloadTask :=
  { task with status := DownloadStatus.failed, error := some msg }

/-- The game directory `games_dir / game_slug` as path components below
the library's console root: `console_root / console_meta.name / "games" /
game_slug`. -/
def game_dir_of (console_meta : ConsoleMeta) (game_name : String) : List String :=
  ["console", console_meta.name, "games", slugify game_name]

/-- The four `mkdir` calls of the executor: the game directory and its
`resources`, `saves` and `graphics` children. -/
def setup_effects (gd : List String) : List Effect :=
  [Effect.mkdirp gd, Effect.mkdirp (gd ++ ["resources"]),
   Effect.mkdirp (gd ++ ["saves"]), Effect.mkdirp (gd ++ ["graphics"])]

/-- `extension = CONSOLE_EXTENSIONS.get(console_code_upper, "bin")`. -/
def extension_of (console_code_upper : String) : String :=
  (CONSOLE_EXTENSIONS.lookup console_code_upper).getD "bin"

/-- `dest_file = download_dir / f"base.{extension}"`. -/
def dest_file_of (console_meta : ConsoleMeta) (game_name console_code_upper : String) :
    List String :=
  game_dir_of console_meta game_name ++ ["resources", "base." ++ extension_of console_code_upper]

/-- The guard of the EXTRACTING stage:
`console_code_upper == "SWITCH" and dest_file.suffix == ".zip"` (the
destination name is always `base.<extension>`). -/
def extract_guard (console_code_upper extension : String) : Bool :=
  console_code_upper == "SWITCH" && fileSuffix ("base." ++ extension) == ".zip"

/-- `_extract_switch_game`: filter the archive's entries to those whose
lowercased name ends in `.xci`, extract the first into the destination
directory, rename it to `base.xci` unless it already has that name, delete
the archive; `False` when no entry matches or anything raises. -/
def extract_switch_game (z : ZipEnv) (zip_path dest_dir : List String) :
    Bool × List Effect :=
  if z.raises then (false, [])
  else
    match z.namelist.filter (fun f => pyEndsWith (pyLower f) ".xci") with
    | [] => (false, [])
    | xci_file :: _ =>
      let extracted := dest_dir ++ [xci_file]
      let target := dest_dir ++ ["base.xci"]
      (true,
        [Effect.extractEntry xci_file dest_dir]
          ++ (if extracted ≠ target then [Effect.renameTo target] else [])
          ++ [Effect.unlinkArchive zip_path])

/-- The metadata record the METADATA stage builds: a placeholder from
`game_name`/`console`, overridden field-wise from `igdb_game` when the
caller supplied one (with Python `or` fallbacks on publisher and year). -/
def build_metadata (task : DownloadTask) (console_code_upper game_slug : String) :
    GameMetadata :=
  let base : GameMetadata :=
    { code := pyLower console_code_upper ++ "-" ++ game_slug,
      console := console_code_upper, id := 0,
      title := [("NA", task.game_name)], publisher := [("NA", "unknown")],
      year := 0, region := "NA" }
  match task.igdb_game with
  | none => base
  | some g =>
    { base with
      id := g.id
      title := [("NA", g.name)]
      publisher := [("NA", pyOrStr g.publisher "unknown")]
      year := pyOrNat g.year 0 }

/-- The four `(asset_type, file_name)` pairs of the ARTWORK loop. -/
def asset_types : List (String × String) :=
  [("grids", "grid"), ("heroes", "hero"), ("logos", "logo"), ("icons", "icon")]

/-- The body of the ARTWORK stage after its status update: make the
graphics directory, search the provider by name, and for the first search
hit fetch the first asset of each type that has a non-empty url.  The body
never touches the Task Record; when anything raises the executor's
`except Exception: pass` abandons the rest of the body. -/
def artwork_stage (aw : ArtworkEnv) (graphics_dir : List String) (search_name : String) :
    List Effect :=
  if aw.raises then aw.raisedFx
  else
    Effect.mkdirp graphics_dir ::
      (match aw.search_game search_name with
       | [] => []
       | game_id :: _ =>
         (asset_types.map (fun p =>
           match aw.assetUrls game_id p.1 with
           | [] => []
           | u :: _ =>
             match u with
             | some url =>
               if url ≠ "" then [Effect.fetchAsset url (graphics_dir ++ [p.2 ++ ".png"])]
               else []
             | none => [])).flatten)

/-- Stages 3 to 5 of the executor (METADATA, optional ARTWORK, COMPLETE),
entered once the download (and any extraction) succeeded: returns the Task
Record snapshots it produces and its effects.  `metadata.save` raising is
caught by the executor's outer `except` (status FAILED, error `str(e)`);
the ARTWORK block runs only when `steamgrid` and its `api_key` are truthy
and swallows every failure. -/
def finish_stages (env : Env) (task : DownloadTask)
    (console_code_upper game_slug : String) (gd : List String) :
    List DownloadTask × List Effect :=
  let t3 := update_task task DownloadStatus.metadata 0.6
  let m := build_metadata task console_code_upper game_slug
  if env.saveRaises then
    ([t3, fail_task t3 env.saveErr], [])
  else
    let saveFx := [Effect.saveMetadata (gd ++ ["metadata.json"]) m]
    if env.steamgridKey then
      let t4 := update_task t3 DownloadStatus.artwork 0.8
      let search_name :=
        match task.igdb_game with
        | some g => g.name
        | none => task.game_name
      let awFx := artwork_stage env.artwork (gd ++ ["graphics"]) search_name
      ([t3, t4, update_task t4 DownloadStatus.complete 1], saveFx ++ awFx)
    else
      ([t3, update_task t3 DownloadStatus.complete 1], saveFx)

/-- `_process_download`: the whole Stage Executor for one task.  Returns
the list of Task Record snapshots after each mutation, in program order,
and the effect list.  The `finally` slot release is modelled by the pool
transition system (`PoolStep.finish`). -/
def process_download (env : Env) (task : DownloadTask) :
    List DownloadTask × List Effect :=
  let console_code_upper := pyUpper task.console
  match env.consoleMeta with
  | none => ([fail_task task "console not found"], [])
  | some console_meta =>
    if env.mkdirRaises then
      ([fail_task task env.mkdirErr], env.mkdirFx)
    else
      let game_slug := slugify task.game_name
      let gd := game_dir_of console_meta task.game_name
      let dest_file := dest_file_of console_meta task.game_name console_code_upper
      let t1 := update_task task DownloadStatus.downloading 0.2
      let dlFx := setup_effects gd ++ [Effect.download dest_file]
      if env.downloadOk = false then
        (t1 :: [fail_task t1 "download failed"], dlFx)
      else if extract_guard console_code_upper (extension_of console_code_upper) = true then
        let t2 := update_task t1 DownloadStatus.extracting 0.4
        let ex := extract_switch_game env.zip dest_file (gd ++ ["resources"])
        if ex.1 = false then
          (t1 :: t2 :: [fail_task t2 "extraction failed"], dlFx ++ ex.2)
        else
          let rest := finish_stages env t2 console_code_upper game_slug gd
          (t1 :: t2 :: rest.1, dlFx ++ ex.2 ++ rest.2)
      else
        let rest := finish_stages env t1 console_code_upper game_slug gd
        (t1 :: rest.1, dlFx ++ rest.2)

/-- `queue_download`: the Task Record as enqueued (status QUEUED, progress
0.0, no error); the uuid is a caller-chosen opaque id here. -/
def queue_download (task_id game_name console : String)
    (igdb_game : Option IgdbGame) : DownloadTask :=
  { id := task_id, game_name := game_name, console := console,
    status := DownloadStatus.queued, progress := 0, error := none,
    igdb_game := igdb_game }

/-- The Task Record states over a task's lifetime: the enqueued state
followed by every snapshot the executor produces. -/
def task_states (env : Env) (task : DownloadTask) : List DownloadTask :=
  task :: (process_download env task).1

/-- The lifetime trace projected to the observed `(status, progress)`
pairs. -/
def sp_trace (env : Env) (task : DownloadTask) : List (DownloadStatus × Rat) :=
  (task_states env task).map (fun t => (t.status, t.progress))

/-- The per-task body of `cancel_download`: any task whose status is not
COMPLETE (QUEUED, any running stage, or already FAILED) is set to FAILED
with error "cancelled by user"; a COMPLETE task is left alone. -/
def cancel_apply (task : DownloadTask) : DownloadTask :=
  if task.status ≠ DownloadStatus.complete then
    { task with status := DownloadStatus.failed, error := some "cancelled by user" }
  else task

/-- `cancel_download(task_id)` over the Task Store (the `tasks` dict as an
association list in insertion order): when the id is present its record is
mutated by `cancel_apply`; other entries are untouched. -/
def cancel_download : List (String × DownloadTask) → String → List (String × DownloadTask)
  | [], _ => []
  | (k, v) :: rest, task_id =>
    (if k == task_id then (k, cancel_apply v) else (k, v)) :: cancel_download rest task_id

/-- `self._notify_throttle = 0.5` (seconds). -/
def notify_throttle : Rat := 0.5

/-- The Notifier's behaviour over a sequence of mutations: each element of
the input is one `_notify_callbacks()` call, tagged with its wall-clock
time `time.time()` and the task status that was just written.  A call
within `notify_throttle` of the last fan-out returns without notifying
anyone and without touching `_last_notify`; otherwise `_last_notify` is set
and the callbacks are invoked.  The result is the list of calls that
actually fanned out. -/
def run_notifier : Rat → List (Rat × DownloadStatus) → List (Rat × DownloadStatus)
  | _, [] => []
  | last_notify, e :: rest =>
    if e.1 - last_notify < notify_throttle then run_notifier last_notify rest
    else e :: run_notifier e.1 rest

/-- One registered observer: its call either returns or raises. -/
inductive CallbackBehavior
  | ok
  | raises (msg : String)
deriving DecidableEq, Repr

/-- Invoking one callback, before any exception handling. -/
def call_callback : CallbackBehavior → Except String Unit
  | CallbackBehavior.ok => Except.ok ()
  | CallbackBehavior.raises msg => Except.error msg

/-- The fan-out loop of `_notify_callbacks`: `for callback in
self.callbacks: try: callback() except Exception: pass`.  Each iteration
catches its callback's exception (recording `false` for a swallowed raise,
`true` for a normal return) and the loop itself runs in the `Except` monad,
so a propagating exception would surface as `Except.error`. -/
def notify_fanout : List CallbackBehavior → Except String (List Bool)
  | [] => Except.ok []
  | cb :: rest =>
    let r := match call_callback cb with
      | Except.ok _ => true
      | Except.error _ => false
    match notify_fanout rest with
    | Except.ok l => Except.ok (r :: l)
    | Except.error e => Except.error e

/-- `self.max_concurrent = 3`. -/
def max_concurrent : Nat := 3

/-- The Dispatcher/executor pool state: the `active_downloads` counter and
the number of executor threads actually running. -/
structure PoolState where
  active_downloads : Nat
  running : Nat
deriving DecidableEq, Repr

/-- Atomic steps of the pool.  `dispatch` is one `_worker_loop` tick that
finds a queued task: guarded by `active_downloads < max_concurrent`, it
increments the counter and starts one executor.  `finish` is the
termination of one executor, however it ends (COMPLETE, an early `return`
on failure, or an exception): its `finally` block decrements the counter
exactly once. -/
inductive PoolStep : PoolState → PoolState → Prop
  | dispatch (s : PoolState) : s.active_downloads < max_concurrent →
      PoolStep s { active_downloads := s.active_downloads + 1, running := s.running + 1 }
  | finish (s : PoolState) : 0 < s.running →
      PoolStep s { active_downloads := s.active_downloads - 1, running := s.running - 1 }

/-- Pool states reachable from the manager's initial state
(`active_downloads = 0`, no executor running). -/
inductive PoolReach : PoolState → Prop
  | init : PoolReach { active_downloads := 0, running := 0 }
  | step {s t : PoolState} : PoolReach s → PoolStep s t → PoolReach t

/-! Claim-side predicates.  The `specGoodSeqs` / `amendedGoodSeqs` lists
and the progress checkers below are written from the claims' words (they
are the properties to be checked), not from the source. -/

/-- The full pipeline order as claim C1 lists it. -/
def pipelineWithExtract : List DownloadStatus :=
  [DownloadStatus.queued, DownloadStatus.downloading, DownloadStatus.extracting,
   DownloadStatus.metadata, DownloadStatus.artwork, DownloadStatus.complete]

/-- The pipeline order with the optional EXTRACTING stage skipped. -/
def pipelineNoExtract : List DownloadStatus :=
  [DownloadStatus.queued, DownloadStatus.downloading,
   DownloadStatus.metadata, DownloadStatus.artwork, DownloadStatus.complete]

/-- The pipeline order with the ARTWORK stage skipped (and EXTRACTING
kept). -/
def pipelineNoArtwork : List DownloadStatus :=
  [DownloadStatus.queued, DownloadStatus.downloading, DownloadStatus.extracting,
   DownloadStatus.metadata, DownloadStatus.complete]

/-- The pipeline order with both optional stages skipped. -/
def pipelineMandatoryOnly : List DownloadStatus :=
  [DownloadStatus.queued, DownloadStatus.downloading,
   DownloadStatus.metadata, DownloadStatus.complete]

/-- Every status sequence claim C1, as stated, allows: a prefix of the
pipeline order with EXTRACTING present or absent (EXTRACTING is the only
stage the claim marks optional), or such a prefix ended early by a direct
transition to FAILED. -/
def specGoodSeqs : List (List DownloadStatus) :=
  let ps := pipelineWithExtract.inits ++ pipelineNoExtract.inits
  ps ++ ps.map (fun p => p ++ [DownloadStatus.failed])

/-- The amended form: ARTWORK is optional as well (the code skips it when
the artwork credential is absent), everything else as claim C1 states. -/
def amendedGoodSeqs : List (List DownloadStatus) :=
  let ps := pipelineWithExtract.inits ++ pipelineNoExtract.inits
    ++ pipelineNoArtwork.inits ++ pipelineMandatoryOnly.inits
  ps ++ ps.map (fun p => p ++ [DownloadStatus.failed])

/-- Claim C2's terminal conditions on the last two snapshots of a trace:
a trace ending COMPLETE ends at progress exactly 1, and a trace ending
FAILED keeps the progress it had before the failing mutation. -/
def finalProgressOk : List (DownloadStatus × Rat) → Prop
  | [] => True
  | [_] => True
  | [prev, last] =>
    (last.1 = DownloadStatus.complete → last.2 = 1) ∧
    (last.1 = DownloadStatus.failed → last.2 = prev.2)
  | _ :: rest => finalProgressOk rest

/-- All of claim C2 over one `(status, progress)` lifetime trace: progress
starts at 0, stays in [0, 1], never decreases, ends at exactly 1 when the
trace ends COMPLETE and keeps its previous value when it ends FAILED. -/
def progressSpecOk (l : List (DownloadStatus × Rat)) : Prop :=
  l.head?.map Prod.snd = some 0 ∧
  List.Chain' (fun a b => a.2 ≤ b.2) l ∧
  (∀ p ∈ l, 0 ≤ p.2 ∧ p.2 ≤ 1) ∧
  finalProgressOk l

/-- An effect of the EXTRACTING stage helper (archive entry extraction,
rename, archive deletion). -/
def isExtractionEffect : Effect → Bool
  | Effect.extractEntry _ _ => true
  | Effect.renameTo _ => true
  | Effect.unlinkArchive _ => true
  | _ => false

/-! Helper lemmas (shared by the claim theorems). -/

/-- The EXTRACTING guard can never fire: the destination name is always
`base.<registry extension>`, and the registry maps SWITCH to `nsp`, so for
SWITCH the suffix is `.nsp`, and for any other console the first conjunct
is already false. -/
theorem extract_guard_always_false (s : String) :
    extract_guard (pyUpper s) (extension_of (pyUpper s)) = false := by
  by_cases h : pyUpper s = "SWITCH"
  · rw [h]; decide
  · have hb : (pyUpper s == "SWITCH") = false := beq_eq_false_iff_ne.mpr h
    unfold extract_guard
    rw [hb]
    simp

/-- The five `(status, progress)` snapshot traces a lifetime can take:
early failure (console lookup or directory creation), download failure,
metadata persistence failure, completion without the ARTWORK stage, and
completion through the ARTWORK stage. -/
def shapeEarlyFail : List (DownloadStatus × Rat) :=
  [(DownloadStatus.queued, 0), (DownloadStatus.failed, 0)]

/-- Trace shape of a source-resolver failure. -/
def shapeDownloadFail : List (DownloadStatus × Rat) :=
  [(DownloadStatus.queued, 0), (DownloadStatus.downloading, 0.2),
   (DownloadStatus.failed, 0.2)]

/-- Trace shape of a metadata persistence failure. -/
def shapeSaveFail : List (DownloadStatus × Rat) :=
  [(DownloadStatus.queued, 0), (DownloadStatus.downloading, 0.2),
   (DownloadStatus.metadata, 0.6), (DownloadStatus.failed, 0.6)]

/-- Trace shape of a completion with the ARTWORK stage skipped. -/
def shapeCompleteNoArt : List (DownloadStatus × Rat) :=
  [(DownloadStatus.queued, 0), (DownloadStatus.downloading, 0.2),
   (DownloadStatus.metadata, 0.6), (DownloadStatus.complete, 1)]

/-- Trace shape of a completion through the ARTWORK stage. -/
def shapeCompleteArt : List (DownloadStatus × Rat) :=
  [(DownloadStatus.queued, 0), (DownloadStatus.downloading, 0.2),
   (DownloadStatus.metadata, 0.6), (DownloadStatus.artwork, 0.8),
   (DownloadStatus.complete, 1)]

/-- All shapes a lifetime trace can take. -/
def traceShapes : List (List (DownloadStatus × Rat)) :=
  [shapeEarlyFail, shapeDownloadFail, shapeSaveFail,
   shapeCompleteNoArt, shapeCompleteArt]

/-- Exhaustive case analysis of the executor: every lifetime trace of a
task that starts QUEUED at progress 0 is one of the five shapes. -/
theorem sp_trace_mem_shapes (env : Env) (task : DownloadTask)
    (h0 : task.status = DownloadStatus.queued) (hp : task.progress = 0) :
    sp_trace env task ∈ traceShapes := by
  obtain ⟨cm, mkR, mkE, mkFx, dlOk, zp, svR, svE, key, aw⟩ := env
  cases cm with
  | none =>
    simp [sp_trace, task_states, process_download, traceShapes, shapeEarlyFail,
      fail_task, h0, hp]
  | some m =>
    cases mkR <;> cases dlOk <;> cases svR <;> cases key <;>
      simp [sp_trace, task_states, process_download, traceShapes, shapeEarlyFail,
        shapeDownloadFail, shapeSaveFail, shapeCompleteNoArt, shapeCompleteArt,
        update_task, fail_task, finish_stages, extract_guard_always_false, h0, hp]

/-- The status trace is the first projection of the `(status, progress)`
trace. -/
theorem status_trace_eq (env : Env) (task : DownloadTask) :
    (task_states env task).map (fun t => t.status) = (sp_trace env task).map Prod.fst := by
  simp [sp_trace, List.map_map]

/-- An artwork environment in which the provider is never consulted. -/
def artworkNone : ArtworkEnv :=
  { raises := false, raisedFx := [], search_game := fun _ => [],
    assetUrls := fun _ _ => [] }

/-- Concrete run for C1: every stage succeeds and the steamgrid credential
is absent, so the ARTWORK stage is skipped. -/
def c1Env : Env :=
  { consoleMeta := some { name := "Nintendo Entertainment System" },
    mkdirRaises := false, mkdirErr := "", mkdirFx := [], downloadOk := true,
    zip := { raises := false, namelist := [] },
    saveRaises := false, saveErr := "", steamgridKey := false,
    artwork := artworkNone }

/-- Concrete run for C4's witness: stages 1-3 succeed, the credential is
present, and every steamgrid call raises. -/
def c4Env : Env :=
  { consoleMeta := some { name := "Game Boy Advance" },
    mkdirRaises := false, mkdirErr := "", mkdirFx := [], downloadOk := true,
    zip := { raises := false, namelist := [] },
    saveRaises := false, saveErr := "", steamgridKey := true,
    artwork := { raises := true, raisedFx := [], search_game := fun _ => [],
                 assetUrls := fun _ _ => [] } }

/-- Concrete run for C5: a SWITCH task whose download succeeds and whose
downloaded asset is a zip container holding a single `.xci` cartridge
image (the archive contents `_extract_switch_game` would see). -/
def c5Env : Env :=
  { consoleMeta := some { name := "Nintendo Switch" },
    mkdirRaises := false, mkdirErr := "", mkdirFx := [], downloadOk := true,
    zip := { raises := false, namelist := ["Game (USA).xci"] },
    saveRaises := false, saveErr := "", steamgridKey := false,
    artwork := artworkNone }

/-- Concrete run for C7's witness: the source resolver reports failure. -/
def c7Env : Env :=
  { consoleMeta := some { name := "Nintendo 64" },
    mkdirRaises := false, mkdirErr := "", mkdirFx := [], downloadOk := false,
    zip := { raises := false, namelist := [] },
    saveRaises := false, saveErr := "", steamgridKey := false,
    artwork := artworkNone }

/-- Concrete run for C10's witness: the console registry lookup finds
nothing. -/
def c10Env : Env :=
  { consoleMeta := none,
    mkdirRaises := false, mkdirErr := "", mkdirFx := [], downloadOk := true,
    zip := { raises := false, namelist := [] },
    saveRaises := false, saveErr := "", steamgridKey := false,
    artwork := artworkNone }

/-- A task already FAILED (error "download failed") for C6's
counterexample. -/
def c6FailedTask : DownloadTask :=
  { id := "a", game_name := "Mario", console := "NES",
    status := DownloadStatus.failed, progress := 0.2,
    error := some "download failed", igdb_game := none }

/-- Invariant of the pool transition system: the counter always equals the
number of running executors (the `finally` decrement runs exactly once per
executor), and never exceeds the ceiling. -/
theorem pool_invariant {s : PoolState} (h : PoolReach s) :
    s.running = s.active_downloads ∧ s.active_downloads ≤ max_concurrent := by
  induction h with
  | init => exact ⟨rfl, by decide⟩
  | step hr hst ih =>
    cases hst with
    | dispatch hlt => exact ⟨by simp [ih.1], hlt⟩
    | finish hpos => exact ⟨by simp [ih.1], le_trans (Nat.sub_le _ _) ih.2⟩

/-- C3: in every reachable pool state the number of concurrently running
Stage Executors is at most the ceiling `max_concurrent` (= 3): the
dispatcher starts one only when `active_downloads < max_concurrent` and
increments the counter, and each executor's `finally` decrements it
exactly once however the executor terminates, so the counter always equals
the number of running executors. -/
theorem c3_concurrency_bound (s : PoolState) (h : PoolReach s) :
    s.running ≤ max_concurrent ∧ s.running = s.active_downloads := by
  obtain ⟨h1, h2⟩ := pool_invariant h
  exact ⟨le_of_eq_of_le h1 h2, h1⟩

/-- C3 witness: the state after two dispatches is reachable and within the
ceiling. -/
theorem c3_concurrency_bound_witness :
    ({ active_downloads := 2, running := 2 } : PoolState).running ≤ max_concurrent :=
  (c3_concurrency_bound { active_downloads := 2, running := 2 }
    (PoolReach.step (PoolReach.step PoolReach.init (PoolStep.dispatch _ (by decide)))
      (PoolStep.dispatch _ (by decide)))).1

/-- C9: during one fan-out every subscribed callback is invoked exactly
once in order, whatever any of them raises (a raise is swallowed and the
loop continues), and the fan-out as a whole never propagates an exception
(the `Except.error` outcome is unreachable), so nothing escapes into
enqueue, cancel, clear or the executor stages that call the notifier. -/
theorem c9_callback_isolation (cbs : List CallbackBehavior) :
    notify_fanout cbs = Except.ok (cbs.map (fun cb =>
      match call_callback cb with
      | Except.ok _ => true
      | Except.error _ => false)) := by
  induction cbs with
  | nil => rfl
  | cons cb rest ih => simp [notify_fanout, ih]

/-- The first fan-out the notifier performs is at least the throttle
interval after the fan-out recorded in `_last_notify`. -/
theorem run_notifier_head_spacing (evs : List (Rat × DownloadStatus)) :
    ∀ (last : Rat) (e : Rat × DownloadStatus),
      (run_notifier last evs).head? = some e → notify_throttle ≤ e.1 - last := by
  induction evs with
  | nil => intro last e h; simp [run_notifier] at h
  | cons a rest ih =>
    intro last e h
    simp only [run_notifier] at h
    split at h
    · exact ih last e h
    · rename_i hlt
      obtain rfl : a = e := by simpa using h
      exact le_of_not_lt hlt

/-- Any two consecutive fan-outs are at least the throttle interval
apart. -/
theorem run_notifier_spacing (last : Rat) (evs : List (Rat × DownloadStatus)) :
    List.Chain' (fun a b => notify_throttle ≤ b.1 - a.1) (run_notifier last evs) := by
  induction evs generalizing last with
  | nil => simp [run_notifier]
  | cons a rest ih =>
    simp only [run_notifier]
    split
    · exact ih last
    · exact List.chain'_cons'.mpr
        ⟨fun b hb => run_notifier_head_spacing rest a.1 b hb, ih a.1⟩

/-- C8 (amended): the throttle guarantees that no two fan-outs occur
within `notify_throttle` (0.5 s) of each other, coalescing bursts; but a
call made within the window performs no fan-out at all and nothing is
deferred, so the notification of a mutation — including a mutation to a
terminal state — can be dropped outright (observers must poll for the
final state): in the two-mutation run below, the COMPLETE mutation 0.3 s
after the first fan-out is never delivered. -/
theorem c8_throttle_amended :
    (∀ (last : Rat) (evs : List (Rat × DownloadStatus)),
        List.Chain' (fun a b => notify_throttle ≤ b.1 - a.1) (run_notifier last evs)) ∧
    run_notifier 0 [((100 : Rat), DownloadStatus.downloading),
        ((100 : Rat) + 0.3, DownloadStatus.complete)]
      = [((100 : Rat), DownloadStatus.downloading)] :=
  ⟨run_notifier_spacing, by norm_num [run_notifier, notify_throttle]⟩

/-- C8 counterexample: the claim says a mutation to a terminal state still
results in observers being notified of it; here the mutation to COMPLETE
at time 100.3 (0.3 s after the previous fan-out) is one of the notifier's
calls, yet no fan-out ever delivers a COMPLETE state. -/
theorem c8_counterexample :
    ((100 : Rat) + 0.3, DownloadStatus.complete) ∈
      [((100 : Rat), DownloadStatus.downloading),
       ((100 : Rat) + 0.3, DownloadStatus.complete)] ∧
    ∀ e ∈ run_notifier 0 [((100 : Rat), DownloadStatus.downloading),
        ((100 : Rat) + 0.3, DownloadStatus.complete)],
      e.2 ≠ DownloadStatus.complete := by
  have h : run_notifier 0 [((100 : Rat), DownloadStatus.downloading),
      ((100 : Rat) + 0.3, DownloadStatus.complete)]
      = [((100 : Rat), DownloadStatus.downloading)] := by
    norm_num [run_notifier, notify_throttle]
  rw [h]
  simp

/-- Cancelling rewrites exactly the stored record of the cancelled id by
`cancel_apply`, leaving every other entry alone. -/
theorem lookup_cancel (tasks : List (String × DownloadTask)) (task_id : String) :
    (cancel_download tasks task_id).lookup task_id
      = (tasks.lookup task_id).map cancel_apply := by
  induction tasks with
  | nil => rfl
  | cons p rest ih =>
    obtain ⟨k, v⟩ := p
    by_cases hbeq : (k == task_id) = true
    · have hk : k = task_id := eq_of_beq hbeq
      subst hk
      have hcons : cancel_download ((k, v) :: rest) k
          = (k, cancel_apply v) :: cancel_download rest k := by
        simp [cancel_download]
      rw [hcons]
      simp [List.lookup]
    · have hne : task_id ≠ k := fun hh => hbeq (by simp [hh])
      have h2 : (task_id == k) = false := beq_eq_false_iff_ne.mpr hne
      have h1 : (k == task_id) = false := by simpa using hbeq
      have hcons : cancel_download ((k, v) :: rest) task_id
          = (k, v) :: cancel_download rest task_id := by
        simp [cancel_download, h1]
      rw [hcons]
      simpa [List.lookup, h2] using ih

/-- C6 (amended): `cancel_download` marks a task FAILED with error
"cancelled by user" exactly when its status is not COMPLETE, so QUEUED and
running tasks are cancelled as the claim says, a COMPLETE task is left
unchanged, but a task already FAILED is re-marked and its `error` field is
overwritten with "cancelled by user" (the source only guards against
COMPLETE, not against both terminal states). -/
theorem c6_cancel_semantics (tasks : List (String × DownloadTask)) (task_id : String)
    (t : DownloadTask) (h : tasks.lookup task_id = some t) :
    (cancel_download tasks task_id).lookup task_id = some (cancel_apply t) ∧
    (t.status = DownloadStatus.complete → cancel_apply t = t) ∧
    (t.status ≠ DownloadStatus.complete →
      (cancel_apply t).status = DownloadStatus.failed ∧
      (cancel_apply t).error = some "cancelled by user") := by
  refine ⟨?_, ?_, ?_⟩
  · rw [lookup_cancel, h]
    rfl
  · intro hc
    simp [cancel_apply, hc]
  · intro hc
    simp [cancel_apply, hc, fail_task]

/-- C6 witness: cancelling a QUEUED task marks it FAILED with error
"cancelled by user". -/
theorem c6_cancel_semantics_witness :
    ((cancel_apply (queue_download "a" "Mario" "NES" none)).status = DownloadStatus.failed ∧
      (cancel_apply (queue_download "a" "Mario" "NES" none)).error
        = some "cancelled by user") :=
  (c6_cancel_semantics [("a", queue_download "a" "Mario" "NES" none)] "a"
      (queue_download "a" "Mario" "NES" none) rfl).2.2 (by simp [queue_download])

/-- C6 counterexample: the claim says a task already in a terminal state
keeps its prior field values under cancel; but for a task already FAILED
with error "download failed", cancel overwrites `error` with "cancelled by
user". -/
theorem c6_counterexample :
    c6FailedTask.status = DownloadStatus.failed ∧
    c6FailedTask.error = some "download failed" ∧
    ((cancel_download [("a", c6FailedTask)] "a").lookup "a").map (fun t => t.error)
      = some (some "cancelled by user") ∧
    some "download failed" ≠ some "cancelled by user" := by
  refine ⟨rfl, rfl, rfl, by decide⟩

/-- C1 (amended): every lifetime status sequence is a prefix of the
pipeline order `[QUEUED, DOWNLOADING, (EXTRACTING), METADATA, (ARTWORK),
COMPLETE]` with EXTRACTING *and* ARTWORK optional (ARTWORK is skipped when
the artwork credential is absent), or such a prefix ended early by a
direct transition to FAILED; in particular a status never moves backward
and DOWNLOADING is never skipped on the way to METADATA. -/
theorem c1_status_pipeline (env : Env) (task_id game_name console : String)
    (igdb_game : Option IgdbGame) :
    (task_states env (queue_download task_id game_name console igdb_game)).map
      (fun t => t.status) ∈ amendedGoodSeqs := by
  have h := sp_trace_mem_shapes env (queue_download task_id game_name console igdb_game)
    rfl rfl
  rw [status_trace_eq]
  simp only [traceShapes, List.mem_cons, List.not_mem_nil, or_false] at h
  rcases h with h | h | h | h | h <;> rw [h] <;> decide

/-- C1 counterexample: with every stage succeeding and the artwork
credential absent, the lifetime status sequence is `[QUEUED, DOWNLOADING,
METADATA, COMPLETE]`, which skips ARTWORK and therefore is not among the
sequences the claim as stated allows (only EXTRACTING is optional there,
and the run does not end in FAILED). -/
theorem c1_counterexample :
    (task_states c1Env (queue_download "t1" "Mario" "NES" none)).map (fun t => t.status)
        = [DownloadStatus.queued, DownloadStatus.downloading, DownloadStatus.metadata,
           DownloadStatus.complete] ∧
    [DownloadStatus.queued, DownloadStatus.downloading, DownloadStatus.metadata,
        DownloadStatus.complete] ∉ specGoodSeqs := by
  constructor
  · decide
  · decide

/-- C2: over every lifetime trace, progress starts at 0.0, is monotone
non-decreasing, stays within [0.0, 1.0], equals exactly 1.0 when the task
ends COMPLETE, and keeps the value it already had when the task ends
FAILED (no failure path touches `progress`). -/
theorem c2_progress_lifecycle (env : Env) (task_id game_name console : String)
    (igdb_game : Option IgdbGame) :
    progressSpecOk (sp_trace env (queue_download task_id game_name console igdb_game)) := by
  have h := sp_trace_mem_shapes env (queue_download task_id game_name console igdb_game)
    rfl rfl
  simp only [traceShapes, List.mem_cons, List.not_mem_nil, or_false] at h
  rcases h with h | h | h | h | h <;> rw [h] <;>
    simp [progressSpecOk, shapeEarlyFail, shapeDownloadFail, shapeSaveFail,
      shapeCompleteNoArt, shapeCompleteArt, finalProgressOk,
      List.chain'_cons, List.chain'_singleton] <;>
    norm_num

/-- C4: whenever stages 1-3 succeed (console found, directories created,
download reported success, metadata persisted), the task ends COMPLETE at
progress exactly 1 for every artwork outcome whatsoever (the environment's
`artwork` part — provider raising, empty search, missing urls — is
universally quantified and the final state does not depend on it); when
the steamgrid credential is absent the ARTWORK stage is skipped entirely
(its status never appears); and no run under these hypotheses ever ends
FAILED. -/
theorem c4_artwork_best_effort (env : Env) (task_id game_name console : String)
    (igdb_game : Option IgdbGame) (hmeta : env.consoleMeta.isSome = true)
    (hmk : env.mkdirRaises = false) (hdl : env.downloadOk = true)
    (hsv : env.saveRaises = false) :
    ((task_states env (queue_download task_id game_name console igdb_game)).getLast?).map
        (fun t => (t.status, t.progress)) = some (DownloadStatus.complete, 1) ∧
    (env.steamgridKey = false →
      DownloadStatus.artwork ∉
        (task_states env (queue_download task_id game_name console igdb_game)).map
          (fun t => t.status)) ∧
    ∀ t ∈ task_states env (queue_download task_id game_name console igdb_game),
      t.status ≠ DownloadStatus.failed := by
  obtain ⟨m, hm⟩ := Option.isSome_iff_exists.mp hmeta
  rcases Bool.eq_false_or_eq_true env.steamgridKey with hk | hk <;>
    simp [task_states, process_download, finish_stages, update_task, fail_task,
      queue_download, extract_guard_always_false, List.getLast?_cons_cons,
      hm, hmk, hdl, hsv, hk]

/-- C4 witness: a run in which every steamgrid call raises still ends
COMPLETE at progress 1. -/
theorem c4_artwork_best_effort_witness :
    ((task_states c4Env (queue_download "t1" "Metroid" "GBA" none)).getLast?).map
      (fun t => (t.status, t.progress)) = some (DownloadStatus.complete, 1) :=
  (c4_artwork_best_effort c4Env "t1" "Metroid" "GBA" none rfl rfl rfl rfl).1

/-- C5: the claim describes the EXTRACTING stage as reachable, but its
guard compares the destination path's suffix with ".zip" while the
destination is always named `base.<registry extension>` — for SWITCH that
is `base.nsp` — so the stage is entered for no task at all and a
downloaded container archive is left packed under `base.nsp`; moreover
the helper itself moves the first `.xci` entry to `base.xci`, not to the
`base.<ext>` of the console registry (`nsp`).  The concrete run is a
SWITCH task whose download succeeded and whose asset is a zip holding
`Game (USA).xci`: the status trace never visits EXTRACTING and no
extraction effect is performed. -/
theorem c5_extraction_dead_code :
    (∀ (env : Env) (task_id game_name console : String) (igdb_game : Option IgdbGame),
        DownloadStatus.extracting ∉
          (task_states env (queue_download task_id game_name console igdb_game)).map
            (fun t => t.status)) ∧
    extension_of "SWITCH" = "nsp" ∧
    extract_guard "SWITCH" (extension_of "SWITCH") = false ∧
    (task_states c5Env (queue_download "t1" "Zelda" "switch" none)).map (fun t => t.status)
      = [DownloadStatus.queued, DownloadStatus.downloading, DownloadStatus.metadata,
         DownloadStatus.complete] ∧
    (process_download c5Env (queue_download "t1" "Zelda" "switch" none)).2.all
      (fun e => !isExtractionEffect e) = true ∧
    ((extract_switch_game { raises := false, namelist := ["Game (USA).xci"] }
        ["a.zip"] ["res"]).1 = true ∧
      Effect.renameTo ["res", "base.xci"] ∈
        (extract_switch_game { raises := false, namelist := ["Game (USA).xci"] }
          ["a.zip"] ["res"]).2) := by
  refine ⟨?_, by decide, by decide, by decide, by decide, by decide, by decide⟩
  intro env task_id game_name console igdb_game
  have h := sp_trace_mem_shapes env (queue_download task_id game_name console igdb_game)
    rfl rfl
  rw [status_trace_eq]
  simp only [traceShapes, List.mem_cons, List.not_mem_nil, or_false] at h
  rcases h with h | h | h | h | h <;> rw [h] <;> decide

/-- C7: when the source resolver reports failure, the lifetime trace is
exactly QUEUED, then DOWNLOADING at progress 0.2, then FAILED with error
"download failed" and progress still 0.2 (the marker set when DOWNLOADING
began), and the executor's effects are exactly the directory creations and
the download attempt — no extraction, no metadata write, no artwork
fetch. -/
theorem c7_download_failed (env : Env) (m : ConsoleMeta)
    (task_id game_name console : String) (igdb_game : Option IgdbGame)
    (hmeta : env.consoleMeta = some m) (hmk : env.mkdirRaises = false)
    (hdl : env.downloadOk = false) :
    task_states env (queue_download task_id game_name console igdb_game) =
      [queue_download task_id game_name console igdb_game,
       update_task (queue_download task_id game_name console igdb_game)
         DownloadStatus.downloading 0.2,
       fail_task (update_task (queue_download task_id game_name console igdb_game)
         DownloadStatus.downloading 0.2) "download failed"] ∧
    (process_download env (queue_download task_id game_name console igdb_game)).2 =
      setup_effects (game_dir_of m game_name) ++
        [Effect.download (dest_file_of m game_name (pyUpper console))] := by
  constructor <;>
    simp [task_states, process_download, queue_download, hmeta, hmk, hdl]

/-- C7 witness: the concrete failing-resolver run. -/
theorem c7_download_failed_witness :
    task_states c7Env (queue_download "t1" "Star Fox" "n64" none) =
      [queue_download "t1" "Star Fox" "n64" none,
       update_task (queue_download "t1" "Star Fox" "n64" none)
         DownloadStatus.downloading 0.2,
       fail_task (update_task (queue_download "t1" "Star Fox" "n64" none)
         DownloadStatus.downloading 0.2) "download failed"] :=
  (c7_download_failed c7Env { name := "Nintendo 64" } "t1" "Star Fox" "n64" none
    rfl rfl rfl).1

/-- C10: when the console registry lookup yields nothing the task goes
straight from QUEUED to FAILED with error "console not found": the effect
list is empty (no directory is created, no download attempted), progress
stays 0.0, and DOWNLOADING never appears. -/
theorem c10_console_not_found (env : Env) (task_id game_name console : String)
    (igdb_game : Option IgdbGame) (hmeta : env.consoleMeta = none) :
    task_states env (queue_download task_id game_name console igdb_game) =
      [queue_download task_id game_name console igdb_game,
       fail_task (queue_download task_id game_name console igdb_game)
         "console not found"] ∧
    (process_download env (queue_download task_id game_name console igdb_game)).2 = [] ∧
    ((task_states env (queue_download task_id game_name console igdb_game)).getLast?).map
      (fun t => t.progress) = some 0 ∧
    DownloadStatus.downloading ∉
      (task_states env (queue_download task_id game_name console igdb_game)).map
        (fun t => t.status) := by
  refine ⟨?_, ?_, ?_, ?_⟩ <;>
    simp [task_states, process_download, queue_download, fail_task, hmeta,
      List.getLast?_cons_cons]

/-- C10 witness: the concrete unknown-console run. -/
theorem c10_console_not_found_witness :
    (process_download c10Env (queue_download "t1" "Doom" "XYZ" none)).2 = [] :=
  (c10_console_not_found c10Env "t1" "Doom" "XYZ" none rfl).2.1
